import Mathlib

/-!
Verification of the routing and resilience core of an AI model router.

The embedding follows the TypeScript source of the router:

* `withRetry` — the per-model retry loop with exponential backoff, optional
  response validation and observer callbacks (`RouterModel.withRetry`);
* `withFallbackChain` — the ordered fallback walk over a chain of models
  (`RouterModel.withFallbackChain`);
* `selectModelChain` / `doGenerate` — request normalization, route lookup and
  dispatch (`RouterModel.selectModelChain`, `RouterModel.doGenerate`);
* `validateConfig` / `mkRouterModel` — construction-time validation
  (`RouterModel.validateConfig` and the `RouterModel` constructor);
* `DEFAULT_RETRY_CONFIG` — the default retry policy.

Models are embedded as oracles `Nat → Except JsError α`: the oracle's value at
`i` is the outcome of the `i`-th invocation of the model's generate operation
(JavaScript closures over call counters become explicit attempt indices).
Side-effecting callbacks (`onRetry`, `onFallback`, `onMaxRetriesExceeded`,
`onInvalidResponse`) and the backoff sleeps are embedded as a trace of
`Event`s: an event is recorded exactly when the source reaches the
corresponding optional-callback invocation point with a retry configuration
present.
-/

namespace AiRouter

/-- thrown JavaScript value: either an `Error` carrying a message, or a thrown
non-`Error` value.  The default `shouldRetry` heuristic distinguishes the two
(`error instanceof Error`). -/
inductive JsError where
  | error (msg : String)
  | nonError
  deriving DecidableEq

/-- error caught by the retry loop: either an error raised by the underlying
model call, or a `ResponseValidationError` carrying the response rejected by
`validateResponse` (source: `class ResponseValidationError extends Error`,
whose `response` field holds the rejected payload). -/
inductive CaughtError (α : Type) where
  | call (e : JsError)
  | validation (response : α)
  deriving DecidableEq

/-- observable event of one router invocation: a call of a chain model's
generate operation, a reached callback-invocation point, or a backoff sleep.
Models are identified by their index in the selected chain. -/
inductive Event (α : Type) where
  | modelCall (modelIndex attempt : Nat)
  | onRetry (err : CaughtError α) (attempt delay : Nat)
  | sleep (delay : Nat)
  | onMaxRetriesExceeded (err : CaughtError α) (attempts : Nat)
  | onInvalidResponse (response : α) (attempt : Nat)
  | onFallback (err : CaughtError α) (fromIndex toIndex : Nat)
  deriving DecidableEq

instance {ε β : Type} [DecidableEq ε] [DecidableEq β] :
    DecidableEq (Except ε β) := fun x y =>
  match x, y with
  | .ok a, .ok b => decidable_of_iff (a = b) (by simp)
  | .error a, .error b => decidable_of_iff (a = b) (by simp)
  | .ok _, .error _ => isFalse (by simp)
  | .error _, .ok _ => isFalse (by simp)

/-- a model is embedded as the oracle of its call outcomes: `fn i` is the
result of the `i`-th invocation of the model's generate operation. -/
def Model (α : Type) : Type := Nat → Except JsError α

variable {α : Type}

/-- test that a character list starts with the given character list. -/
def charsStartWith : List Char → List Char → Bool
  | _, [] => true
  | [], _ :: _ => false
  | h :: hs, n :: ns => h == n && charsStartWith hs ns

/-- test that `needle` occurs contiguously inside `hay`. -/
def charsContain : List Char → List Char → Bool
  | [], needle => needle.isEmpty
  | h :: hs, needle => charsStartWith (h :: hs) needle || charsContain hs needle

/-- lowercasing of an error message (`message.toLowerCase()`), modelled
characterwise over the string's characters. -/
def lowerChars (s : String) : List Char :=
  s.toList.map Char.toLower

/-- substring test over lowered characters: `hay.includes(needle)` applied to
the lowercased message. -/
def strIncludes (hay : List Char) (needle : String) : Bool :=
  charsContain hay needle.toList

/-- default `shouldRetry` of `DEFAULT_RETRY_CONFIG`: always retry
`ResponseValidationError`; retry an `Error` whose lowercased message contains
"rate limit", "timeout" or "overloaded"; never retry a thrown non-`Error`. -/
def defaultShouldRetry (err : CaughtError α) (_attempt : Nat) : Bool :=
  match err with
  | .validation _ => true
  | .call (.error msg) =>
      let m := lowerChars msg
      strIncludes m ("rate limit") || strIncludes m ("timeout") ||
        strIncludes m ("overloaded")
  | .call .nonError => false

/-- retry policy as supplied by the caller: every field optional, mirroring
the `RetryConfig` type.  The observer callbacks are not part of the record:
their invocation points are recorded in the event trace instead. -/
structure RetryConfig (α : Type) where
  maxRetries : Option Nat := none
  initialDelay : Option Nat := none
  maxDelay : Option Nat := none
  backoffMultiplier : Option Nat := none
  shouldRetry : Option (CaughtError α → Nat → Bool) := none
  validateResponse : Option (α → Bool) := none

/-- the `DEFAULT_RETRY_CONFIG` constant of the source (its spread
`{ ...DEFAULT_RETRY_CONFIG }` is the config stored when `config.retry` is
undefined). -/
def DEFAULT_RETRY_CONFIG (α : Type) : RetryConfig α :=
  { maxRetries := some 3
    initialDelay := some 1000
    maxDelay := some 10000
    backoffMultiplier := some 2
    shouldRetry := some defaultShouldRetry
    validateResponse := none }

/-- retry policy after the destructuring-with-defaults at the top of
`withRetry` (`maxRetries = DEFAULT_RETRY_CONFIG.maxRetries`, ...). -/
structure ResolvedRetry (α : Type) where
  maxRetries : Nat
  initialDelay : Nat
  maxDelay : Nat
  backoffMultiplier : Nat
  shouldRetry : CaughtError α → Nat → Bool
  validateResponse : Option (α → Bool)

/-- resolution of the optional fields of a supplied policy against
`DEFAULT_RETRY_CONFIG`, as performed by `withRetry`'s destructuring. -/
def resolveRetryConfig (rc : RetryConfig α) : ResolvedRetry α :=
  { maxRetries := rc.maxRetries.getD 3
    initialDelay := rc.initialDelay.getD 1000
    maxDelay := rc.maxDelay.getD 10000
    backoffMultiplier := rc.backoffMultiplier.getD 2
    shouldRetry := rc.shouldRetry.getD defaultShouldRetry
    validateResponse := rc.validateResponse }

/-- backoff delay between retries:
`Math.min(initialDelay * Math.pow(backoffMultiplier, attempt - 1), maxDelay)`
where `attempt` is the already-incremented attempt counter (so it is ≥ 1). -/
def backoffDelay (c : ResolvedRetry α) (attempt : Nat) : Nat :=
  min (c.initialDelay * c.backoffMultiplier ^ (attempt - 1)) c.maxDelay

/-- body of the `try` block of one iteration of `withRetry`'s loop: call the
model, then apply `validateResponse` if present; a rejected response fires the
`onInvalidResponse` point and raises a `ResponseValidationError` carrying the
response.  Returns the outcome together with the events of this attempt. -/
def attemptOutcome (c : ResolvedRetry α) (mIdx : Nat) (fn : Model α)
    (attempt : Nat) : Except (CaughtError α) α × List (Event α) :=
  match fn attempt with
  | .ok result =>
    match c.validateResponse with
    | some validate =>
      if validate result then (.ok result, [.modelCall mIdx attempt])
      else (.error (.validation result),
            [.modelCall mIdx attempt, .onInvalidResponse result attempt])
    | none => (.ok result, [.modelCall mIdx attempt])
  | .error e => (.error (.call e), [.modelCall mIdx attempt])

/-- the `while (attempt <= maxRetries)` loop of `withRetry`.  The `gas`
parameter counts the loop iterations still allowed by the loop condition; the
loop is always entered with `gas = maxRetries + 1 - attempt`, so the `gas = 0`
case is the `throw lastError` line after the loop, which is unreachable from
`withRetryGo`.  In the catch block: exhausted retries re-raise the error
(firing `onMaxRetriesExceeded` only for the last chain model); a non-retryable
error per `shouldRetry` is re-raised at once; otherwise the `onRetry` point
fires and the loop sleeps for the backoff delay before retrying. -/
def withRetryLoop (c : ResolvedRetry α) (isLast : Bool) (mIdx : Nat)
    (fn : Model α) : Nat → Nat → Option (CaughtError α) →
    Except (CaughtError α) α × List (Event α)
  | 0, _, lastError => (.error (lastError.getD (.call .nonError)), [])
  | gas + 1, attempt, _ =>
    match attemptOutcome c mIdx fn attempt with
    | (.ok r, evs) => (.ok r, evs)
    | (.error err, evs) =>
      let a := attempt + 1
      if a > c.maxRetries then
        (.error err,
         evs ++ (if isLast then [.onMaxRetriesExceeded err a] else []))
      else if c.shouldRetry err a then
        let d := backoffDelay c a
        let res := withRetryLoop c isLast mIdx fn gas a (some err)
        (res.1, evs ++ .onRetry err a d :: .sleep d :: res.2)
      else
        (.error err, evs)

/-- `withRetry` with a resolved (non-undefined) retry configuration: run the
loop from attempt 0. -/
def withRetryGo (c : ResolvedRetry α) (isLast : Bool) (mIdx : Nat)
    (fn : Model α) : Except (CaughtError α) α × List (Event α) :=
  withRetryLoop c isLast mIdx fn (c.maxRetries + 1) 0 none

/-- `RouterModel.withRetry`: with no retry configuration (`retry: false`), the
model is called exactly once and its outcome returned without validation,
backoff or callbacks; otherwise the supplied policy is resolved against the
defaults and the retry loop runs. -/
def withRetry (rc : Option (RetryConfig α)) (isLast : Bool) (mIdx : Nat)
    (fn : Model α) : Except (CaughtError α) α × List (Event α) :=
  match rc with
  | none =>
    match fn 0 with
    | .ok v => (.ok v, [.modelCall mIdx 0])
    | .error e => (.error (.call e), [.modelCall mIdx 0])
  | some rc => withRetryGo (resolveRetryConfig rc) isLast mIdx fn

/-- `RouterModel.withFallbackChain`, starting at chain position `idx`: try the
model at the head with retries (`isLastModel` iff no model follows); on
failure of a non-last model, fire the `onFallback` point (reached only when a
retry configuration is present) and continue with the next model; the last
model's failure propagates.  The empty-chain case is the `throw lastError`
line after the loop (unreachable through a validated router, where every
chain is non-empty). -/
def withFallbackChainGo (rc : Option (RetryConfig α)) :
    List (Model α) → Nat → Except (CaughtError α) α × List (Event α)
  | [], _ => (.error (.call .nonError), [])
  | m :: rest, idx =>
    match withRetry rc rest.isEmpty idx m with
    | (.ok v, evs) => (.ok v, evs)
    | (.error err, evs) =>
      match rest with
      | [] => (.error err, evs)
      | _ :: _ =>
        let next := withFallbackChainGo rc rest (idx + 1)
        (next.1,
         evs ++ (if rc.isSome then [.onFallback err idx (idx + 1)] else [])
             ++ next.2)

/-- `RouterModel.withFallbackChain` applied to a whole chain. -/
def withFallbackChain (rc : Option (RetryConfig α)) (chain : List (Model α)) :
    Except (CaughtError α) α × List (Event α) :=
  withFallbackChainGo rc chain 0

/-- one element of a message's content array (`{ type: 'text', text }` parts
versus any other part kind). -/
inductive ContentPart where
  | text (t : String)
  | other
  deriving DecidableEq

/-- content of a prompt message: a plain string (system messages) or an array
of content parts (all other roles). -/
inductive MsgContent where
  | str (s : String)
  | parts (ps : List ContentPart)
  deriving DecidableEq

/-- one message of the call options' prompt. -/
structure Message where
  role : String
  content : MsgContent
  deriving DecidableEq

/-- request handed to the configured `select` function. -/
structure RouterRequest where
  prompt : Option String := none
  messages : List Message := []
  deriving DecidableEq

/-- extraction of `request.prompt` in `selectModelChain`: the text of the
first content part of the first message, provided that part exists, is not a
plain string, and has `type === 'text'`. -/
def extractPrompt : List Message → Option String
  | [] => none
  | msg :: _ =>
    match msg.content with
    | .str _ => none
    | .parts [] => none
    | .parts (.text t :: _) => some t
    | .parts (.other :: _) => none

/-- normalization of the call options into the `RouterRequest` handed to
`select`: extracted prompt text plus all non-system messages with role and
content preserved. -/
def extractRequest (prompt : List Message) : RouterRequest :=
  { prompt := extractPrompt prompt
    messages := prompt.filter (fun msg => msg.role != ("system")) }

/-- `ModelOrChain`: a route maps to a bare model or to a fallback chain. -/
inductive ModelOrChain (α : Type) where
  | single (m : Model α)
  | chain (ms : List (Model α))

/-- `normalizeToChain`: a bare model becomes a one-element chain. -/
def normalizeToChain : ModelOrChain α → List (Model α)
  | .single m => [m]
  | .chain ms => ms

/-- the `retry` field of the router configuration: absent (`undefined`),
explicitly disabled (`false`), or a supplied policy. -/
inductive RetrySetting (α : Type) where
  | unspecified
  | disabled
  | config (rc : RetryConfig α)

/-- router configuration as supplied to the `RouterModel` constructor.  The
`select` field is optional so that the construction-time validation of a
missing select function is expressible.  Route keys are the insertion-ordered
keys of the JavaScript `models` object. -/
structure RouterConfigInput (α : Type) where
  models : List (String × ModelOrChain α)
  select : Option (RouterRequest → String)
  retry : RetrySetting α := .unspecified

/-- constructed router: normalized chains, the select function, and the
stored `RetryConfig | false` field (`none` encodes `false`). -/
structure RouterModel (α : Type) where
  models : List (String × List (Model α))
  select : RouterRequest → String
  retryConfig : Option (RetryConfig α)

/-- storage of the constructor's `config.retry ?? { ...DEFAULT_RETRY_CONFIG }`:
an absent setting stores the default config, `false` is kept as the disabled
marker, and a supplied policy is stored as given. -/
def resolveRetrySetting : RetrySetting α → Option (RetryConfig α)
  | .unspecified => some (DEFAULT_RETRY_CONFIG α)
  | .disabled => none
  | .config rc => some rc

/-- `RouterModel.validateConfig`: reject an empty models mapping, then a
missing select function, then the first route whose chain is empty, in that
order, with the source's error messages. -/
def validateConfig (models : List (String × List (Model α)))
    (hasSelect : Bool) : Except String Unit :=
  if models.isEmpty then
    .error ("Router configuration must include at least one model")
  else if !hasSelect then
    .error ("Router configuration must include a select function")
  else
    match models.find? (fun p => p.2.isEmpty) with
    | some p => .error ("Route \"" ++ p.1 ++ "\" must have at least one model")
    | none => .ok ()

/-- the `RouterModel` constructor: normalize every route's value to a chain,
store the retry setting, and validate.  A validation failure is the thrown
configuration error. -/
def mkRouterModel (cfg : RouterConfigInput α) : Except String (RouterModel α) :=
  match validateConfig (cfg.models.map (fun p => (p.1, normalizeToChain p.2)))
      cfg.select.isSome with
  | .error e => .error e
  | .ok _ =>
    match cfg.select with
    | some sel =>
      .ok { models := cfg.models.map (fun p => (p.1, normalizeToChain p.2))
            select := sel
            retryConfig := resolveRetrySetting cfg.retry }
    | none => .error ("Router configuration must include a select function")

/-- `RouterModel.getRetryConfig`: the disabled marker becomes `undefined`,
otherwise the stored config is returned. -/
def getRetryConfig (rm : RouterModel α) : Option (RetryConfig α) :=
  match rm.retryConfig with
  | none => none
  | some rc => some rc

/-- `RouterModel.selectModelChain`: normalize the request, call `select`, and
look the returned key up in the models mapping; an absent key raises the
route-not-found error naming the key and listing the available routes. -/
def selectModelChain (rm : RouterModel α) (opts : List Message) :
    Except String (List (Model α) × String) :=
  let request := extractRequest opts
  let selectedRoute := rm.select request
  match rm.models.lookup selectedRoute with
  | some chain => .ok (chain, selectedRoute)
  | none =>
    .error ("Selected route \"" ++ selectedRoute ++
      "\" does not exist in models. Available routes: " ++
      String.intercalate (", ") (rm.models.map Prod.fst))

/-- error surfaced by `doGenerate`: the route-not-found error (raised before
any model call) or the failure propagated out of the fallback chain. -/
inductive DoGenError (α : Type) where
  | routeNotFound (msg : String)
  | callFailure (err : CaughtError α)
  deriving DecidableEq

/-- `RouterModel.doGenerate`: select the chain, resolve the retry setting and
run the fallback chain over the models' generate calls (`doStream` is the
same composition over the streaming calls). -/
def doGenerate (rm : RouterModel α) (opts : List Message) :
    Except (DoGenError α) α × List (Event α) :=
  match selectModelChain rm opts with
  | .error msg => (.error (.routeNotFound msg), [])
  | .ok (chain, _) =>
    match withFallbackChain (getRetryConfig rm) chain with
    | (.ok v, evs) => (.ok v, evs)
    | (.error err, evs) => (.error (.callFailure err), evs)

/-- attempt numbers of the `onRetry` events of a trace, in order. -/
def onRetryAttempts (t : List (Event α)) : List Nat :=
  t.filterMap (fun ev => match ev with
    | .onRetry _ attempt _ => some attempt
    | _ => none)

/-- delays of the `onRetry` events of a trace, in order. -/
def onRetryDelays (t : List (Event α)) : List Nat :=
  t.filterMap (fun ev => match ev with
    | .onRetry _ _ delay => some delay
    | _ => none)

/-- arguments of the `onFallback` events of a trace, in order. -/
def onFallbackEvents (t : List (Event α)) : List (CaughtError α × Nat × Nat) :=
  t.filterMap (fun ev => match ev with
    | .onFallback err i j => some (err, i, j)
    | _ => none)

/-- arguments of the `onMaxRetriesExceeded` events of a trace, in order. -/
def onMaxRetriesEvents (t : List (Event α)) : List (CaughtError α × Nat) :=
  t.filterMap (fun ev => match ev with
    | .onMaxRetriesExceeded err attempts => some (err, attempts)
    | _ => none)

/-- arguments of the `onInvalidResponse` events of a trace, in order. -/
def onInvalidResponseEvents (t : List (Event α)) : List (α × Nat) :=
  t.filterMap (fun ev => match ev with
    | .onInvalidResponse r attempt => some (r, attempt)
    | _ => none)

/-- model calls of a trace as (chain index, attempt) pairs, in order. -/
def modelCalls (t : List (Event α)) : List (Nat × Nat) :=
  t.filterMap (fun ev => match ev with
    | .modelCall i attempt => some (i, attempt)
    | _ => none)

/-- sleeps of a trace, in order. -/
def sleepDelays (t : List (Event α)) : List Nat :=
  t.filterMap (fun ev => match ev with
    | .sleep d => some d
    | _ => none)

/-- test for a model-call event. -/
def isModelCallEvent : Event α → Bool
  | .modelCall _ _ => true
  | _ => false

/-- consecutive naturals `[s, s+1, ..., s+n-1]`. -/
def natRangeFrom (s : Nat) : Nat → List Nat
  | 0 => []
  | n + 1 => s :: natRangeFrom (s + 1) n

/-- events of one failed attempt `i` that is followed by a retry: the
attempt's own events, the `onRetry` invocation point and the backoff sleep. -/
def retryStepEvents (c : ResolvedRetry α) (mIdx : Nat) (fn : Model α)
    (err : Nat → CaughtError α) (i : Nat) : List (Event α) :=
  (attemptOutcome c mIdx fn i).2 ++
    [.onRetry (err i) (i + 1) (backoffDelay c (i + 1)),
     .sleep (backoffDelay c (i + 1))]

/-- events of `left` consecutive failed-and-retried attempts starting at
attempt `a`. -/
def retrySteps (c : ResolvedRetry α) (mIdx : Nat) (fn : Model α)
    (err : Nat → CaughtError α) : Nat → Nat → List (Event α)
  | _, 0 => []
  | a, left + 1 =>
    retryStepEvents c mIdx fn err a ++ retrySteps c mIdx fn err (a + 1) left

/-- expected trace of a retry loop entered at attempt `a` whose every attempt
fails: retried attempts `a .. maxRetries - 1`, the final failing attempt, and
the `onMaxRetriesExceeded` point if this is the last chain model. -/
def exhaustTrace (c : ResolvedRetry α) (isLast : Bool) (mIdx : Nat)
    (fn : Model α) (err : Nat → CaughtError α) (a : Nat) : List (Event α) :=
  retrySteps c mIdx fn err a (c.maxRetries - a) ++
    (attemptOutcome c mIdx fn c.maxRetries).2 ++
    (if isLast then
      [.onMaxRetriesExceeded (err c.maxRetries) (c.maxRetries + 1)]
     else [])

/-- expected trace of a retry loop entered at attempt `a` that fails on
attempts `a .. k - 1` and succeeds on attempt `k`. -/
def succTrace (c : ResolvedRetry α) (mIdx : Nat) (fn : Model α)
    (err : Nat → CaughtError α) (a k : Nat) : List (Event α) :=
  retrySteps c mIdx fn err a (k - a) ++ (attemptOutcome c mIdx fn k).2

/-- expected behavior of the fallback walk when retry is disabled, per the
spec's words: each model is called exactly once, in chain order, stopping at
the first success; no retry, no backoff, no callbacks; the last model's error
propagates. -/
def singlePassSpec : List (Model α) → Nat →
    Except (CaughtError α) α × List (Event α)
  | [], _ => (.error (.call .nonError), [])
  | m :: rest, idx =>
    match m 0 with
    | .ok v => (.ok v, [.modelCall idx 0])
    | .error e =>
      match rest with
      | [] => (.error (.call e), [.modelCall idx 0])
      | _ :: _ =>
        let next := singlePassSpec rest (idx + 1)
        (next.1, .modelCall idx 0 :: next.2)

/-- options of the standalone `retry` utility (module `retry`); only the
field relevant here is embedded. -/
structure RetryOptions (ε : Type) where
  shouldRetry : Option (ε → Nat → Bool) := none

/-- default resolution `shouldRetry = () => true` in the standalone `retry`
utility's destructuring: with no predicate supplied, every error is
retryable. -/
def RetryOptions.resolvedShouldRetry {ε : Type} (o : RetryOptions ε) :
    ε → Nat → Bool :=
  o.shouldRetry.getD (fun _ _ => true)

theorem natRangeFrom_length (s n : Nat) : (natRangeFrom s n).length = n := by
  induction n generalizing s with
  | zero => rfl
  | succ n ih => simp [natRangeFrom, ih]

theorem natRangeFrom_mem {s n x : Nat} (h : x ∈ natRangeFrom s n) : s ≤ x := by
  induction n generalizing s with
  | zero => simp [natRangeFrom] at h
  | succ n ih =>
    simp only [natRangeFrom, List.mem_cons] at h
    rcases h with rfl | h
    · exact le_rfl
    · exact Nat.le_of_succ_le (ih h)

theorem natRangeFrom_pairwise (s n : Nat) :
    (natRangeFrom s n).Pairwise (· < ·) := by
  induction n generalizing s with
  | zero => exact List.Pairwise.nil
  | succ n ih =>
    exact List.Pairwise.cons (fun x hx => Nat.lt_of_lt_of_le (Nat.lt_succ_self s) (natRangeFrom_mem hx)) (ih (s + 1))

/-- the events of a single attempt are a model call possibly followed by an
`onInvalidResponse` point. -/
theorem attemptOutcome_events_shape (c : ResolvedRetry α) (mIdx : Nat)
    (fn : Model α) (i : Nat) :
    (attemptOutcome c mIdx fn i).2 = [Event.modelCall mIdx i] ∨
    ∃ r, (attemptOutcome c mIdx fn i).2 =
      [Event.modelCall mIdx i, Event.onInvalidResponse r i] := by
  unfold attemptOutcome
  cases fn i with
  | ok r =>
    cases c.validateResponse with
    | none => left; rfl
    | some validate =>
      by_cases h : validate r
      · left; simp [h]
      · right; exact ⟨r, by simp [h]⟩
  | error e => left; rfl

/-- no retry, sleep, fallback or exhaustion event occurs within a single
attempt's own events. -/
theorem attemptOutcome_events_proj (c : ResolvedRetry α) (mIdx : Nat)
    (fn : Model α) (i : Nat) :
    onRetryAttempts (attemptOutcome c mIdx fn i).2 = [] ∧
    onRetryDelays (attemptOutcome c mIdx fn i).2 = [] ∧
    onFallbackEvents (attemptOutcome c mIdx fn i).2 = [] ∧
    onMaxRetriesEvents (attemptOutcome c mIdx fn i).2 = [] ∧
    sleepDelays (attemptOutcome c mIdx fn i).2 = [] := by
  rcases attemptOutcome_events_shape c mIdx fn i with h | ⟨r, h⟩ <;>
    rw [h] <;>
    simp [onRetryAttempts, onRetryDelays, onFallbackEvents,
      onMaxRetriesEvents, sleepDelays]

theorem onRetryAttempts_append (l1 l2 : List (Event α)) :
    onRetryAttempts (l1 ++ l2) = onRetryAttempts l1 ++ onRetryAttempts l2 :=
  List.filterMap_append _ _ _

theorem onRetryDelays_append (l1 l2 : List (Event α)) :
    onRetryDelays (l1 ++ l2) = onRetryDelays l1 ++ onRetryDelays l2 :=
  List.filterMap_append _ _ _

theorem onFallbackEvents_append (l1 l2 : List (Event α)) :
    onFallbackEvents (l1 ++ l2) = onFallbackEvents l1 ++ onFallbackEvents l2 :=
  List.filterMap_append _ _ _

theorem onMaxRetriesEvents_append (l1 l2 : List (Event α)) :
    onMaxRetriesEvents (l1 ++ l2) =
      onMaxRetriesEvents l1 ++ onMaxRetriesEvents l2 :=
  List.filterMap_append _ _ _

theorem onInvalidResponseEvents_append (l1 l2 : List (Event α)) :
    onInvalidResponseEvents (l1 ++ l2) =
      onInvalidResponseEvents l1 ++ onInvalidResponseEvents l2 :=
  List.filterMap_append _ _ _

theorem modelCalls_append (l1 l2 : List (Event α)) :
    modelCalls (l1 ++ l2) = modelCalls l1 ++ modelCalls l2 :=
  List.filterMap_append _ _ _

theorem sleepDelays_append (l1 l2 : List (Event α)) :
    sleepDelays (l1 ++ l2) = sleepDelays l1 ++ sleepDelays l2 :=
  List.filterMap_append _ _ _

/-- unfolding of the expected all-fail trace at a retried attempt. -/
theorem exhaustTrace_step (c : ResolvedRetry α) (isLast : Bool) (mIdx : Nat)
    (fn : Model α) (err : Nat → CaughtError α) {a : Nat}
    (h : a < c.maxRetries) :
    exhaustTrace c isLast mIdx fn err a =
      (attemptOutcome c mIdx fn a).2 ++
        Event.onRetry (err a) (a + 1) (backoffDelay c (a + 1)) ::
        Event.sleep (backoffDelay c (a + 1)) ::
        exhaustTrace c isLast mIdx fn err (a + 1) := by
  unfold exhaustTrace
  have h1 : c.maxRetries - a = (c.maxRetries - (a + 1)) + 1 := by omega
  rw [h1]
  simp [retrySteps, retryStepEvents]

/-- unfolding of the expected fail-then-succeed trace at a retried attempt. -/
theorem succTrace_step (c : ResolvedRetry α) (mIdx : Nat)
    (fn : Model α) (err : Nat → CaughtError α) {a k : Nat} (h : a < k) :
    succTrace c mIdx fn err a k =
      (attemptOutcome c mIdx fn a).2 ++
        Event.onRetry (err a) (a + 1) (backoffDelay c (a + 1)) ::
        Event.sleep (backoffDelay c (a + 1)) ::
        succTrace c mIdx fn err (a + 1) k := by
  unfold succTrace
  have h1 : k - a = (k - (a + 1)) + 1 := by omega
  rw [h1]
  simp [retrySteps, retryStepEvents]

/-- main loop lemma, all attempts failing: entered at attempt `a` with the
loop invariant on `gas`, when every remaining attempt fails and every error
before exhaustion is retryable, the loop returns the final attempt's error
and produces the expected trace. -/
theorem withRetryLoop_exhaust (c : ResolvedRetry α) (isLast : Bool)
    (mIdx : Nat) (fn : Model α) (err : Nat → CaughtError α) :
    ∀ gas a lastE, gas = c.maxRetries + 1 - a → a ≤ c.maxRetries →
    (∀ i, a ≤ i → i ≤ c.maxRetries →
      (attemptOutcome c mIdx fn i).1 = .error (err i)) →
    (∀ i, a ≤ i → i < c.maxRetries →
      c.shouldRetry (err i) (i + 1) = true) →
    withRetryLoop c isLast mIdx fn gas a lastE =
      (.error (err c.maxRetries), exhaustTrace c isLast mIdx fn err a) := by
  intro gas
  induction gas with
  | zero => intro a lastE hgas ha _ _; omega
  | succ g ih =>
    intro a lastE hgas ha hfail hretry
    obtain ⟨o, evs, hATO⟩ : ∃ o evs, attemptOutcome c mIdx fn a = (o, evs) :=
      ⟨_, _, rfl⟩
    have ho : o = .error (err a) := by
      have h1 := hfail a le_rfl ha; rw [hATO] at h1; exact h1
    subst ho
    by_cases hlast : a = c.maxRetries
    · subst hlast
      simp only [withRetryLoop, hATO]
      rw [if_pos (by omega)]
      unfold exhaustTrace
      rw [Nat.sub_self, hATO]
      simp [retrySteps]
    · have hlt : a < c.maxRetries := by omega
      simp only [withRetryLoop, hATO]
      rw [if_neg (by omega)]
      rw [if_pos (by rw [hretry a le_rfl hlt])]
      rw [ih (a + 1) (some (err a)) (by omega) (by omega)
        (fun i h1 h2 => hfail i (by omega) h2)
        (fun i h1 h2 => hretry i (by omega) h2)]
      rw [exhaustTrace_step c isLast mIdx fn err hlt, hATO]

/-- main loop lemma, success at attempt `k`: entered at attempt `a ≤ k` with
the loop invariant on `gas`, when attempts before `k` fail retryably and
attempt `k` succeeds within the budget, the loop returns the success and
produces the expected trace. -/
theorem withRetryLoop_succeed (c : ResolvedRetry α) (isLast : Bool)
    (mIdx : Nat) (fn : Model α) (err : Nat → CaughtError α) (k : Nat)
    (v : α) :
    ∀ gas a lastE, gas = c.maxRetries + 1 - a → a ≤ k →
    k ≤ c.maxRetries →
    (∀ i, a ≤ i → i < k →
      (attemptOutcome c mIdx fn i).1 = .error (err i)) →
    (attemptOutcome c mIdx fn k).1 = .ok v →
    (∀ i, a ≤ i → i < k → c.shouldRetry (err i) (i + 1) = true) →
    withRetryLoop c isLast mIdx fn gas a lastE =
      (.ok v, succTrace c mIdx fn err a k) := by
  intro gas
  induction gas with
  | zero => intro a lastE hgas ha hk _ _ _; omega
  | succ g ih =>
    intro a lastE hgas ha hk hfail hok hretry
    obtain ⟨o, evs, hATO⟩ : ∃ o evs, attemptOutcome c mIdx fn a = (o, evs) :=
      ⟨_, _, rfl⟩
    by_cases hak : a = k
    · subst hak
      have ho : o = .ok v := by rw [hATO] at hok; exact hok
      subst ho
      simp only [withRetryLoop, hATO]
      unfold succTrace
      rw [Nat.sub_self, hATO]
      simp [retrySteps]
    · have hlt : a < k := by omega
      have ho : o = .error (err a) := by
        have h1 := hfail a le_rfl hlt; rw [hATO] at h1; exact h1
      subst ho
      simp only [withRetryLoop, hATO]
      rw [if_neg (by omega)]
      rw [if_pos (by rw [hretry a le_rfl hlt])]
      rw [ih (a + 1) (some (err a)) (by omega) (by omega) hk
        (fun i h1 h2 => hfail i (by omega) h2) hok
        (fun i h1 h2 => hretry i (by omega) h2)]
      rw [succTrace_step c mIdx fn err hlt, hATO]

/-- main loop lemma, non-retryable error: when the attempt fails before the
budget is exhausted and `shouldRetry` rejects the error, the loop re-raises
it at once with no retry events. -/
theorem withRetryLoop_abort (c : ResolvedRetry α) (isLast : Bool)
    (mIdx : Nat) (fn : Model α) (e : CaughtError α) {gas a : Nat}
    (lastE : Option (CaughtError α))
    (hgas : gas = c.maxRetries + 1 - a) (ha : a < c.maxRetries)
    (hout : (attemptOutcome c mIdx fn a).1 = .error e)
    (hsr : c.shouldRetry e (a + 1) = false) :
    withRetryLoop c isLast mIdx fn gas a lastE =
      (.error e, (attemptOutcome c mIdx fn a).2) := by
  obtain ⟨g, rfl⟩ : ∃ g, gas = g + 1 := ⟨gas - 1, by omega⟩
  obtain ⟨o, evs, hATO⟩ : ∃ o evs, attemptOutcome c mIdx fn a = (o, evs) :=
    ⟨_, _, rfl⟩
  have ho : o = .error e := by rw [hATO] at hout; exact hout
  subst ho
  simp only [withRetryLoop, hATO]
  rw [if_neg (by omega)]
  rw [if_neg (by rw [hsr]; exact Bool.false_ne_true)]

/-- `withRetryGo` version of the all-fail lemma, started at attempt 0. -/
theorem withRetryGo_exhaust (c : ResolvedRetry α) (isLast : Bool)
    (mIdx : Nat) (fn : Model α) (err : Nat → CaughtError α)
    (hfail : ∀ i, i ≤ c.maxRetries →
      (attemptOutcome c mIdx fn i).1 = .error (err i))
    (hretry : ∀ i, i < c.maxRetries →
      c.shouldRetry (err i) (i + 1) = true) :
    withRetryGo c isLast mIdx fn =
      (.error (err c.maxRetries), exhaustTrace c isLast mIdx fn err 0) :=
  withRetryLoop_exhaust c isLast mIdx fn err (c.maxRetries + 1) 0 none
    (by omega) (Nat.zero_le _) (fun i _ h2 => hfail i h2)
    (fun i _ h2 => hretry i h2)

/-- `withRetryGo` version of the success lemma, started at attempt 0. -/
theorem withRetryGo_succeed (c : ResolvedRetry α) (isLast : Bool)
    (mIdx : Nat) (fn : Model α) (err : Nat → CaughtError α) (k : Nat)
    (v : α) (hk : k ≤ c.maxRetries)
    (hfail : ∀ i, i < k → (attemptOutcome c mIdx fn i).1 = .error (err i))
    (hok : (attemptOutcome c mIdx fn k).1 = .ok v)
    (hretry : ∀ i, i < k → c.shouldRetry (err i) (i + 1) = true) :
    withRetryGo c isLast mIdx fn = (.ok v, succTrace c mIdx fn err 0 k) :=
  withRetryLoop_succeed c isLast mIdx fn err k v (c.maxRetries + 1) 0 none
    (by omega) (Nat.zero_le _) hk (fun i _ h2 => hfail i h2) hok
    (fun i _ h2 => hretry i h2)

/-- `withRetryGo` version of the non-retryable abort lemma. -/
theorem withRetryGo_abort (c : ResolvedRetry α) (isLast : Bool)
    (mIdx : Nat) (fn : Model α) (e : CaughtError α)
    (hmr : 0 < c.maxRetries)
    (hout : (attemptOutcome c mIdx fn 0).1 = .error e)
    (hsr : c.shouldRetry e 1 = false) :
    withRetryGo c isLast mIdx fn = (.error e, (attemptOutcome c mIdx fn 0).2) :=
  withRetryLoop_abort c isLast mIdx fn e none (by omega) hmr hout hsr

/-- projections of the retried-attempts trace: `onRetry` fires at attempts
`a+1 .. a+left` with the backoff delays, and no fallback or exhaustion event
occurs. -/
theorem retrySteps_proj (c : ResolvedRetry α) (mIdx : Nat) (fn : Model α)
    (err : Nat → CaughtError α) :
    ∀ left a,
    onRetryAttempts (retrySteps c mIdx fn err a left) =
      natRangeFrom (a + 1) left ∧
    onRetryDelays (retrySteps c mIdx fn err a left) =
      (natRangeFrom (a + 1) left).map (backoffDelay c) ∧
    onFallbackEvents (retrySteps c mIdx fn err a left) = [] ∧
    onMaxRetriesEvents (retrySteps c mIdx fn err a left) = [] := by
  intro left
  induction left with
  | zero =>
    intro a
    simp [retrySteps, natRangeFrom, onRetryAttempts, onRetryDelays,
      onFallbackEvents, onMaxRetriesEvents]
  | succ l ih =>
    intro a
    obtain ⟨h1, h2, h3, h4⟩ := ih (a + 1)
    obtain ⟨p1, p2, p3, p4, _⟩ := attemptOutcome_events_proj c mIdx fn a
    unfold retrySteps retryStepEvents
    rw [List.append_assoc]
    rw [onRetryAttempts_append, onRetryDelays_append, onFallbackEvents_append,
      onMaxRetriesEvents_append, p1, p2, p3, p4]
    rw [onRetryAttempts_append, onRetryDelays_append, onFallbackEvents_append,
      onMaxRetriesEvents_append, h1, h2, h3, h4]
    simp [onRetryAttempts, onRetryDelays, onFallbackEvents,
      onMaxRetriesEvents, natRangeFrom]

/-- projections of the expected all-fail trace from attempt 0: `onRetry`
fires at attempts `1 .. maxRetries`, no fallback event occurs, and
`onMaxRetriesExceeded` fires exactly once (with the final error and the total
attempt count) iff this is the last chain model. -/
theorem exhaustTrace_proj (c : ResolvedRetry α) (isLast : Bool) (mIdx : Nat)
    (fn : Model α) (err : Nat → CaughtError α) :
    onRetryAttempts (exhaustTrace c isLast mIdx fn err 0) =
      natRangeFrom 1 c.maxRetries ∧
    onFallbackEvents (exhaustTrace c isLast mIdx fn err 0) = [] ∧
    onMaxRetriesEvents (exhaustTrace c isLast mIdx fn err 0) =
      (if isLast then [(err c.maxRetries, c.maxRetries + 1)] else []) := by
  obtain ⟨r1, _, r3, r4⟩ := retrySteps_proj c mIdx fn err c.maxRetries 0
  obtain ⟨p1, _, p3, p4, _⟩ := attemptOutcome_events_proj c mIdx fn c.maxRetries
  unfold exhaustTrace
  rw [Nat.sub_zero]
  rw [onRetryAttempts_append, onRetryAttempts_append,
    onFallbackEvents_append, onFallbackEvents_append,
    onMaxRetriesEvents_append, onMaxRetriesEvents_append,
    r1, r3, r4, p1, p3, p4]
  cases isLast <;>
    simp [onRetryAttempts, onFallbackEvents, onMaxRetriesEvents]

/-- projections of the expected fail-then-succeed trace from attempt 0:
`onRetry` fires at attempts `1 .. k` with the backoff delays, and no fallback
or exhaustion event occurs. -/
theorem succTrace_proj (c : ResolvedRetry α) (mIdx : Nat)
    (fn : Model α) (err : Nat → CaughtError α) (k : Nat) :
    onRetryAttempts (succTrace c mIdx fn err 0 k) = natRangeFrom 1 k ∧
    onRetryDelays (succTrace c mIdx fn err 0 k) =
      (natRangeFrom 1 k).map (backoffDelay c) ∧
    onFallbackEvents (succTrace c mIdx fn err 0 k) = [] ∧
    onMaxRetriesEvents (succTrace c mIdx fn err 0 k) = [] := by
  obtain ⟨r1, r2, r3, r4⟩ := retrySteps_proj c mIdx fn err k 0
  obtain ⟨p1, p2, p3, p4, _⟩ := attemptOutcome_events_proj c mIdx fn k
  unfold succTrace
  rw [Nat.sub_zero]
  rw [onRetryAttempts_append, onRetryDelays_append, onFallbackEvents_append,
    onMaxRetriesEvents_append, r1, r2, r3, r4, p1, p2, p3, p4]
  simp

/-- a call outcome when no validator is configured and the call succeeds. -/
theorem attemptOutcome_noValidate_ok (c : ResolvedRetry α) (mIdx : Nat)
    (fn : Model α) {i : Nat} {v : α} (h : c.validateResponse = none)
    (hf : fn i = .ok v) :
    attemptOutcome c mIdx fn i = (.ok v, [.modelCall mIdx i]) := by
  unfold attemptOutcome
  rw [hf, h]

/-- a call outcome when the underlying call fails (the validator is not
consulted). -/
theorem attemptOutcome_error (c : ResolvedRetry α) (mIdx : Nat)
    (fn : Model α) {i : Nat} {e : JsError} (hf : fn i = .error e) :
    attemptOutcome c mIdx fn i = (.error (.call e), [.modelCall mIdx i]) := by
  unfold attemptOutcome
  rw [hf]

/-- a call outcome when the call succeeds but the validator rejects the
response: the `onInvalidResponse` point fires and a validation error carrying
the response is raised. -/
theorem attemptOutcome_invalid (c : ResolvedRetry α) (mIdx : Nat)
    (fn : Model α) {i : Nat} {r : α} {vf : α → Bool}
    (h : c.validateResponse = some vf) (hv : vf r = false)
    (hf : fn i = .ok r) :
    attemptOutcome c mIdx fn i =
      (.error (.validation r),
       [.modelCall mIdx i, .onInvalidResponse r i]) := by
  unfold attemptOutcome
  rw [hf, h]
  simp [hv]

/-- main loop lemma for an always-rejecting validator: whatever `shouldRetry`
decides, the loop's outcome is a validation error carrying some attempt's
response, and the `onInvalidResponse` events are exactly one per model call,
each carrying that call's rejected response. -/
theorem withRetryLoop_allInvalid (c : ResolvedRetry α) (isLast : Bool)
    (mIdx : Nat) (fn : Model α) (r : Nat → α) (vf : α → Bool)
    (hval : c.validateResponse = some vf) (hvf : ∀ x, vf x = false)
    (hfn : ∀ i, fn i = .ok (r i)) :
    ∀ gas a lastE, gas = c.maxRetries + 1 - a → a ≤ c.maxRetries →
    (∃ j, a ≤ j ∧ j ≤ c.maxRetries ∧
      (withRetryLoop c isLast mIdx fn gas a lastE).1 =
        .error (.validation (r j))) ∧
    onInvalidResponseEvents (withRetryLoop c isLast mIdx fn gas a lastE).2 =
      (modelCalls (withRetryLoop c isLast mIdx fn gas a lastE).2).map
        (fun p => (r p.2, p.2)) := by
  intro gas
  induction gas with
  | zero => intro a lastE hgas ha; omega
  | succ g ih =>
    intro a lastE hgas ha
    have hATO := attemptOutcome_invalid c mIdx fn hval (hvf (r a)) (hfn a)
    by_cases hexh : a + 1 > c.maxRetries
    · simp only [withRetryLoop, hATO]
      rw [if_pos hexh]
      refine ⟨⟨a, le_rfl, ha, rfl⟩, ?_⟩
      cases isLast <;> simp [onInvalidResponseEvents, modelCalls]
    · by_cases hsr : c.shouldRetry (.validation (r a)) (a + 1) = true
      · obtain ⟨⟨j, hj1, hj2, hres⟩, hproj⟩ :=
          ih (a + 1) (some (.validation (r a))) (by omega) (by omega)
        simp only [withRetryLoop, hATO]
        rw [if_neg hexh, if_pos hsr]
        refine ⟨⟨j, by omega, hj2, hres⟩, ?_⟩
        rw [onInvalidResponseEvents_append, modelCalls_append]
        simp only [onInvalidResponseEvents, modelCalls, List.filterMap_cons,
          List.filterMap_nil] at hproj ⊢
        simp [hproj]
      · simp only [withRetryLoop, hATO]
        rw [if_neg hexh, if_neg hsr]
        refine ⟨⟨a, le_rfl, ha, rfl⟩, ?_⟩
        simp [onInvalidResponseEvents, modelCalls]

/-- with retry disabled, the fallback walk equals the single-pass
specification: one call per model, in order, stopping at the first success,
with no other event. -/
theorem withFallbackChainGo_disabled (chain : List (Model α)) :
    ∀ idx, withFallbackChainGo (α := α) none chain idx =
      singlePassSpec chain idx := by
  induction chain with
  | nil => intro idx; rfl
  | cons m rest ih =>
    intro idx
    unfold withFallbackChainGo singlePassSpec withRetry
    cases hm : m 0 with
    | ok v => simp
    | error e =>
      cases rest with
      | nil => simp
      | cons m2 r2 => simp [ih]

/-- every event of the single-pass specification is a model call: no retry,
sleep, fallback, validation or exhaustion event occurs. -/
theorem singlePassSpec_events (chain : List (Model α)) :
    ∀ idx, ((singlePassSpec chain idx).2.all isModelCallEvent) = true := by
  induction chain with
  | nil => intro idx; rfl
  | cons m rest ih =>
    intro idx
    unfold singlePassSpec
    cases hm : m 0 with
    | ok v => simp [isModelCallEvent]
    | error e =>
      cases rest with
      | nil => simp [isModelCallEvent]
      | cons m2 r2 => simp [isModelCallEvent, ih (idx + 1)]

/-- C4: with `initialDelay=1000`, `backoffMultiplier=2`, `maxDelay=10000`
(the defaults), the successive backoff delays are 1000, 2000, 4000, 8000 and
then the cap 10000; every delay is at most 10000 no matter how large the
exponent grows; and in a run against a model that always fails retryably
under the default policy, the delays passed to the `onRetry` points are
1000, 2000, 4000. -/
theorem claimC4 :
    backoffDelay (resolveRetryConfig (DEFAULT_RETRY_CONFIG Nat)) 1 = 1000 ∧
    backoffDelay (resolveRetryConfig (DEFAULT_RETRY_CONFIG Nat)) 2 = 2000 ∧
    backoffDelay (resolveRetryConfig (DEFAULT_RETRY_CONFIG Nat)) 3 = 4000 ∧
    backoffDelay (resolveRetryConfig (DEFAULT_RETRY_CONFIG Nat)) 4 = 8000 ∧
    backoffDelay (resolveRetryConfig (DEFAULT_RETRY_CONFIG Nat)) 5 = 10000 ∧
    (∀ attempt : Nat,
      backoffDelay (resolveRetryConfig (DEFAULT_RETRY_CONFIG Nat)) attempt ≤
        10000) ∧
    onRetryDelays (withRetry (some (DEFAULT_RETRY_CONFIG Nat)) true 0
      (fun _ => Except.error (JsError.error ("timeout")))).2 =
      [1000, 2000, 4000] := by
  refine ⟨by decide, by decide, by decide, by decide, by decide, ?_, by decide⟩
  intro attempt
  exact Nat.min_le_right _ _

/-- C9 counterexample: with no `shouldRetry` supplied in the policy, the
resolved default of the router (`DEFAULT_RETRY_CONFIG.shouldRetry`) returns
false for an ordinary error — not true for every error. -/
theorem claimC9_counterexample :
    (resolveRetryConfig ({} : RetryConfig Nat)).shouldRetry
      (.call (.error ("boom"))) 1 = false := by
  decide

/-- C9 (amended): with no `shouldRetry` supplied, the router's resolved
default returns true (at every attempt number) for every
`ResponseValidationError` and for every `Error` whose lowercased message
contains "rate limit", "timeout" or "overloaded"; it returns false for
every other `Error` (any message lacking all three substrings) and for
thrown non-`Error` values.  The standalone `retry` utility's default
`shouldRetry`, in contrast, returns true for every error and attempt
number. -/
theorem claimC9_amended :
    (∀ (r : Nat) (attempt : Nat),
      (resolveRetryConfig ({} : RetryConfig Nat)).shouldRetry
        (.validation r) attempt = true) ∧
    (∀ (msg : String) (attempt : Nat),
      (strIncludes (lowerChars msg) ("rate limit") ||
       strIncludes (lowerChars msg) ("timeout") ||
       strIncludes (lowerChars msg) ("overloaded")) = true →
      (resolveRetryConfig ({} : RetryConfig Nat)).shouldRetry
        (.call (.error msg)) attempt = true) ∧
    (∀ (msg : String) (attempt : Nat),
      (strIncludes (lowerChars msg) ("rate limit") ||
       strIncludes (lowerChars msg) ("timeout") ||
       strIncludes (lowerChars msg) ("overloaded")) = false →
      (resolveRetryConfig ({} : RetryConfig Nat)).shouldRetry
        (.call (.error msg)) attempt = false) ∧
    (∀ attempt : Nat,
      (resolveRetryConfig ({} : RetryConfig Nat)).shouldRetry
        (.call .nonError) attempt = false) ∧
    (∀ (ε : Type) (e : ε) (attempt : Nat),
      RetryOptions.resolvedShouldRetry ({} : RetryOptions ε) e attempt =
        true) := by
  refine ⟨fun r attempt => rfl, ?_, ?_, fun attempt => rfl,
    fun ε e attempt => rfl⟩
  · intro msg attempt h
    exact h
  · intro msg attempt h
    exact h

theorem claimC9_amended_witness :
    ((strIncludes (lowerChars ("Rate limit exceeded")) ("rate limit") ||
      strIncludes (lowerChars ("Rate limit exceeded")) ("timeout") ||
      strIncludes (lowerChars ("Rate limit exceeded")) ("overloaded")) =
        true) ∧
    (resolveRetryConfig ({} : RetryConfig Nat)).shouldRetry
      (.call (.error ("Rate limit exceeded"))) 2 = true ∧
    ((strIncludes (lowerChars ("connection refused")) ("rate limit") ||
      strIncludes (lowerChars ("connection refused")) ("timeout") ||
      strIncludes (lowerChars ("connection refused")) ("overloaded")) =
        false) ∧
    (resolveRetryConfig ({} : RetryConfig Nat)).shouldRetry
      (.call (.error ("connection refused"))) 2 = false :=
  ⟨by decide, claimC9_amended.2.1 ("Rate limit exceeded") 2 (by decide),
   by decide, claimC9_amended.2.2.1 ("connection refused") 2 (by decide)⟩

/-- C3: for every `k` and every retry policy with `maxRetries ≥ k` (and no
response validator) whose `shouldRetry` accepts the raised errors, if the
model's call fails `k` times and then succeeds, the wrapper returns the
success value and the `onRetry` points fire exactly `k` times, at the
strictly increasing attempt numbers `1 .. k`. -/
theorem claimC3 (rc : RetryConfig α) (fn : Model α) (e : Nat → JsError)
    (v : α) (k : Nat) (isLast : Bool) (mIdx : Nat)
    (hval : rc.validateResponse = none)
    (hk : k ≤ (resolveRetryConfig rc).maxRetries)
    (hfail : ∀ i, i < k → fn i = .error (e i))
    (hok : fn k = .ok v)
    (hretry : ∀ i, i < k →
      (resolveRetryConfig rc).shouldRetry (.call (e i)) (i + 1) = true) :
    (withRetry (some rc) isLast mIdx fn).1 = .ok v ∧
    onRetryAttempts (withRetry (some rc) isLast mIdx fn).2 =
      natRangeFrom 1 k ∧
    (onRetryAttempts (withRetry (some rc) isLast mIdx fn).2).length = k ∧
    (onRetryAttempts (withRetry (some rc) isLast mIdx fn).2).Pairwise
      (· < ·) := by
  have hvalc : (resolveRetryConfig rc).validateResponse = none := hval
  have hfail2 : ∀ i, i < k →
      (attemptOutcome (resolveRetryConfig rc) mIdx fn i).1 =
        .error (.call (e i)) := by
    intro i hi
    rw [attemptOutcome_error (resolveRetryConfig rc) mIdx fn (hfail i hi)]
  have hok2 : (attemptOutcome (resolveRetryConfig rc) mIdx fn k).1 = .ok v := by
    rw [attemptOutcome_noValidate_ok (resolveRetryConfig rc) mIdx fn hvalc hok]
  have hrun : withRetry (some rc) isLast mIdx fn =
      (.ok v, succTrace (resolveRetryConfig rc) mIdx fn
        (fun i => .call (e i)) 0 k) :=
    withRetryGo_succeed (resolveRetryConfig rc) isLast mIdx fn
      (fun i => .call (e i)) k v hk hfail2 hok2 hretry
  obtain ⟨s1, _, _, _⟩ :=
    succTrace_proj (resolveRetryConfig rc) mIdx fn (fun i => .call (e i)) k
  rw [hrun]
  refine ⟨rfl, s1, ?_, ?_⟩
  · rw [s1, natRangeFrom_length]
  · rw [s1]; exact natRangeFrom_pairwise 1 k

theorem claimC3_witness :
    (∀ i, i < 2 →
      (fun j => if j < 2 then Except.error (JsError.error ("timeout"))
                else Except.ok 7) i = Except.error (JsError.error ("timeout"))) ∧
    ((withRetry (some ({} : RetryConfig Nat)) true 0
      (fun j => if j < 2 then Except.error (JsError.error ("timeout"))
                else Except.ok 7)).1 = .ok 7 ∧
     onRetryAttempts (withRetry (some ({} : RetryConfig Nat)) true 0
      (fun j => if j < 2 then Except.error (JsError.error ("timeout"))
                else Except.ok 7)).2 = natRangeFrom 1 2 ∧
     (onRetryAttempts (withRetry (some ({} : RetryConfig Nat)) true 0
      (fun j => if j < 2 then Except.error (JsError.error ("timeout"))
                else Except.ok 7)).2).length = 2 ∧
     (onRetryAttempts (withRetry (some ({} : RetryConfig Nat)) true 0
      (fun j => if j < 2 then Except.error (JsError.error ("timeout"))
                else Except.ok 7)).2).Pairwise (· < ·)) :=
  ⟨by decide,
   claimC3 ({} : RetryConfig Nat)
     (fun j => if j < 2 then Except.error (JsError.error ("timeout"))
               else Except.ok 7)
     (fun _ => JsError.error ("timeout")) 7 2 true 0 rfl (by decide)
     (by decide) (by decide) (by decide)⟩

/-- C5: for a single-model chain with `maxRetries = 2` (and no response
validator) and a model failing on every attempt with errors the policy
retries, `onMaxRetriesExceeded` fires exactly once, with attempt count 3,
and the propagated error is the last underlying failure itself. -/
theorem claimC5 (rc : RetryConfig α) (m : Model α) (e : Nat → JsError)
    (hmr : rc.maxRetries = some 2)
    (hfail : ∀ i, i ≤ 2 → m i = .error (e i))
    (hretry : ∀ i, i < 2 →
      (resolveRetryConfig rc).shouldRetry (.call (e i)) (i + 1) = true) :
    (withFallbackChain (some rc) [m]).1 = .error (.call (e 2)) ∧
    onMaxRetriesEvents (withFallbackChain (some rc) [m]).2 =
      [(.call (e 2), 3)] ∧
    onFallbackEvents (withFallbackChain (some rc) [m]).2 = [] := by
  have hc2 : (resolveRetryConfig rc).maxRetries = 2 := by
    simp [resolveRetryConfig, hmr]
  have hfail2 : ∀ i, i ≤ (resolveRetryConfig rc).maxRetries →
      (attemptOutcome (resolveRetryConfig rc) 0 m i).1 =
        .error (.call (e i)) := by
    intro i hi
    rw [hc2] at hi
    rw [attemptOutcome_error (resolveRetryConfig rc) 0 m (hfail i hi)]
  have hretry2 : ∀ i, i < (resolveRetryConfig rc).maxRetries →
      (resolveRetryConfig rc).shouldRetry (.call (e i)) (i + 1) = true := by
    intro i hi
    rw [hc2] at hi
    exact hretry i hi
  have hex := withRetryGo_exhaust (resolveRetryConfig rc) true 0 m
    (fun i => .call (e i)) hfail2 hretry2
  obtain ⟨_, q2, q3⟩ := exhaustTrace_proj (resolveRetryConfig rc) true 0 m
    (fun i => .call (e i))
  rw [hc2] at hex q3
  have hw : withRetry (some rc) true 0 m =
      (.error (.call (e 2)), exhaustTrace (resolveRetryConfig rc) true 0 m
        (fun i => .call (e i)) 0) := hex
  unfold withFallbackChain withFallbackChainGo
  rw [show List.isEmpty ([] : List (Model α)) = true from rfl, hw]
  exact ⟨rfl, by simpa using q3, q2⟩

theorem claimC5_witness :
    (({ maxRetries := some 2 } : RetryConfig Nat).maxRetries = some 2) ∧
    ((withFallbackChain (some ({ maxRetries := some 2 } : RetryConfig Nat))
      [fun _ => Except.error (JsError.error ("overloaded"))]).1 =
        .error (.call (JsError.error ("overloaded"))) ∧
     onMaxRetriesEvents (withFallbackChain
      (some ({ maxRetries := some 2 } : RetryConfig Nat))
      [fun _ => Except.error (JsError.error ("overloaded"))]).2 =
        [(.call (JsError.error ("overloaded")), 3)] ∧
     onFallbackEvents (withFallbackChain
      (some ({ maxRetries := some 2 } : RetryConfig Nat))
      [fun _ => Except.error (JsError.error ("overloaded"))]).2 = []) :=
  ⟨rfl,
   claimC5 ({ maxRetries := some 2 } : RetryConfig Nat)
     (fun _ => Except.error (JsError.error ("overloaded")))
     (fun _ => JsError.error ("overloaded")) rfl (by decide) (by decide)⟩

/-- C2: for every two-model chain (under a policy with no response validator)
where model 1 fails on every attempt until its retry budget is exhausted with
errors the policy retries, and model 2's first call succeeds, the fallback
walk returns model 2's result, and the `onFallback` point fires exactly once,
carrying the last error of model 1 and the two models' chain positions; no
`onMaxRetriesExceeded` fires (model 1 is not the last chain entry). -/
theorem claimC2 (rc : RetryConfig α) (m1 m2 : Model α) (e : Nat → JsError)
    (v : α)
    (hval : rc.validateResponse = none)
    (hfail : ∀ i, i ≤ (resolveRetryConfig rc).maxRetries →
      m1 i = .error (e i))
    (hretry : ∀ i, i < (resolveRetryConfig rc).maxRetries →
      (resolveRetryConfig rc).shouldRetry (.call (e i)) (i + 1) = true)
    (hok : m2 0 = .ok v) :
    (withFallbackChain (some rc) [m1, m2]).1 = .ok v ∧
    onFallbackEvents (withFallbackChain (some rc) [m1, m2]).2 =
      [(.call (e (resolveRetryConfig rc).maxRetries), 0, 1)] ∧
    onMaxRetriesEvents (withFallbackChain (some rc) [m1, m2]).2 = [] := by
  have hvalc : (resolveRetryConfig rc).validateResponse = none := hval
  have hfail2 : ∀ i, i ≤ (resolveRetryConfig rc).maxRetries →
      (attemptOutcome (resolveRetryConfig rc) 0 m1 i).1 =
        .error (.call (e i)) := by
    intro i hi
    rw [attemptOutcome_error (resolveRetryConfig rc) 0 m1 (hfail i hi)]
  have hw1 : withRetry (some rc) false 0 m1 =
      (.error (.call (e (resolveRetryConfig rc).maxRetries)),
       exhaustTrace (resolveRetryConfig rc) false 0 m1
         (fun i => .call (e i)) 0) :=
    withRetryGo_exhaust (resolveRetryConfig rc) false 0 m1
      (fun i => .call (e i)) hfail2 hretry
  have hok2 : (attemptOutcome (resolveRetryConfig rc) 1 m2 0).1 = .ok v := by
    rw [attemptOutcome_noValidate_ok (resolveRetryConfig rc) 1 m2 hvalc hok]
  have hw2 : withRetry (some rc) true 1 m2 =
      (.ok v, succTrace (resolveRetryConfig rc) 1 m2
        (fun i => .call (e i)) 0 0) :=
    withRetryGo_succeed (resolveRetryConfig rc) true 1 m2
      (fun i => .call (e i)) 0 v (Nat.zero_le _)
      (fun i hi => absurd hi (Nat.not_lt_zero i)) hok2
      (fun i hi => absurd hi (Nat.not_lt_zero i))
  obtain ⟨_, q2, q3⟩ := exhaustTrace_proj (resolveRetryConfig rc) false 0 m1
    (fun i => .call (e i))
  obtain ⟨_, _, s3, s4⟩ := succTrace_proj (resolveRetryConfig rc) 1 m2
    (fun i => .call (e i)) 0
  have hinner : withFallbackChainGo (some rc) [m2] 1 =
      (.ok v, succTrace (resolveRetryConfig rc) 1 m2
        (fun i => .call (e i)) 0 0) := by
    unfold withFallbackChainGo
    rw [show List.isEmpty ([] : List (Model α)) = true from rfl, hw2]
  have hgo : withFallbackChain (some rc) [m1, m2] =
      (.ok v,
       exhaustTrace (resolveRetryConfig rc) false 0 m1
           (fun i => .call (e i)) 0 ++
         Event.onFallback (.call (e (resolveRetryConfig rc).maxRetries)) 0 1 ::
         succTrace (resolveRetryConfig rc) 1 m2 (fun i => .call (e i)) 0 0) := by
    unfold withFallbackChain withFallbackChainGo
    rw [show List.isEmpty ([m2] : List (Model α)) = false from rfl, hw1]
    simp [Nat.zero_add, hinner]
  rw [hgo]
  refine ⟨rfl, ?_, ?_⟩
  · rw [show Event.onFallback
        (CaughtError.call (e (resolveRetryConfig rc).maxRetries)) 0 1 ::
        succTrace (resolveRetryConfig rc) 1 m2 (fun i => .call (e i)) 0 0 =
        [Event.onFallback
          (CaughtError.call (e (resolveRetryConfig rc).maxRetries)) 0 1] ++
        succTrace (resolveRetryConfig rc) 1 m2 (fun i => .call (e i)) 0 0
      from rfl]
    rw [onFallbackEvents_append, onFallbackEvents_append, q2, s3]
    simp [onFallbackEvents]
  · rw [show Event.onFallback
        (CaughtError.call (e (resolveRetryConfig rc).maxRetries)) 0 1 ::
        succTrace (resolveRetryConfig rc) 1 m2 (fun i => .call (e i)) 0 0 =
        [Event.onFallback
          (CaughtError.call (e (resolveRetryConfig rc).maxRetries)) 0 1] ++
        succTrace (resolveRetryConfig rc) 1 m2 (fun i => .call (e i)) 0 0
      from rfl]
    rw [onMaxRetriesEvents_append, onMaxRetriesEvents_append, s4]
    simp only [q3]
    simp [onMaxRetriesEvents]

theorem claimC2_witness :
    (((fun _ => Except.error (JsError.error ("overloaded"))) : Model Nat) 0 =
      Except.error (JsError.error ("overloaded"))) ∧
    ((withFallbackChain (some ({} : RetryConfig Nat))
      [((fun _ => Except.error (JsError.error ("overloaded"))) : Model Nat),
       ((fun _ => Except.ok 9) : Model Nat)]).1 = .ok 9 ∧
     onFallbackEvents (withFallbackChain (some ({} : RetryConfig Nat))
      [((fun _ => Except.error (JsError.error ("overloaded"))) : Model Nat),
       ((fun _ => Except.ok 9) : Model Nat)]).2 =
        [(.call (JsError.error ("overloaded")), 0, 1)] ∧
     onMaxRetriesEvents (withFallbackChain (some ({} : RetryConfig Nat))
      [((fun _ => Except.error (JsError.error ("overloaded"))) : Model Nat),
       ((fun _ => Except.ok 9) : Model Nat)]).2 = []) :=
  ⟨rfl,
   claimC2 ({} : RetryConfig Nat)
     ((fun _ => Except.error (JsError.error ("overloaded"))) : Model Nat)
     ((fun _ => Except.ok 9) : Model Nat)
     (fun _ => JsError.error ("overloaded")) 9 rfl
     (by decide) (by decide) rfl⟩

/-- C6: for every retry policy whose `validateResponse` always returns false
and a model whose underlying calls all succeed, every attempt is treated as a
failure (the wrapper's outcome is a validation error carrying some attempt's
response, never a success); the `onInvalidResponse` point fires exactly once
per model call, with that call's rejected response and attempt number; the
failure is the distinct `ResponseValidationError` representation carrying
the rejected payload, which the default `shouldRetry` treats as
retryable. -/
theorem claimC6 (rc : RetryConfig α) (vf : α → Bool) (r : Nat → α)
    (fn : Model α) (isLast : Bool) (mIdx : Nat)
    (hval : rc.validateResponse = some vf)
    (hvf : ∀ x, vf x = false)
    (hfn : ∀ i, fn i = .ok (r i)) :
    (∃ j, j ≤ (resolveRetryConfig rc).maxRetries ∧
      (withRetry (some rc) isLast mIdx fn).1 = .error (.validation (r j))) ∧
    onInvalidResponseEvents (withRetry (some rc) isLast mIdx fn).2 =
      (modelCalls (withRetry (some rc) isLast mIdx fn).2).map
        (fun p => (r p.2, p.2)) ∧
    (∀ (x : α) (attempt : Nat),
      defaultShouldRetry (CaughtError.validation x) attempt = true) := by
  have hvalc : (resolveRetryConfig rc).validateResponse = some vf := hval
  have h := withRetryLoop_allInvalid (resolveRetryConfig rc) isLast mIdx fn
    r vf hvalc hvf hfn ((resolveRetryConfig rc).maxRetries + 1) 0 none
    (by omega) (Nat.zero_le _)
  obtain ⟨⟨j, _, hj2, hres⟩, hproj⟩ := h
  exact ⟨⟨j, hj2, hres⟩, hproj, fun x attempt => rfl⟩

theorem claimC6_witness :
    (∀ x : Nat, (fun (_ : Nat) => false) x = false) ∧
    ((∃ j, j ≤ (resolveRetryConfig
        ({ validateResponse := some (fun _ => false) } : RetryConfig Nat)).maxRetries ∧
      (withRetry (some ({ validateResponse := some (fun _ => false) } :
        RetryConfig Nat)) true 0 ((fun i => Except.ok i) : Model Nat)).1 =
        .error (.validation j)) ∧
     onInvalidResponseEvents (withRetry
      (some ({ validateResponse := some (fun _ => false) } : RetryConfig Nat))
      true 0 ((fun i => Except.ok i) : Model Nat)).2 =
      (modelCalls (withRetry
        (some ({ validateResponse := some (fun _ => false) } : RetryConfig Nat))
        true 0 ((fun i => Except.ok i) : Model Nat)).2).map
          (fun p => (p.2, p.2)) ∧
     (∀ (x : Nat) (attempt : Nat),
       defaultShouldRetry (CaughtError.validation x) attempt = true)) :=
  ⟨fun _ => rfl,
   claimC6 ({ validateResponse := some (fun _ => false) } : RetryConfig Nat)
     (fun _ => false) (fun i => i) ((fun i => Except.ok i) : Model Nat) true 0
     rfl (fun _ => rfl) (fun _ => rfl)⟩

/-- C1 counterexample: on a two-model chain under a policy whose
`shouldRetry` always returns false, the first error raised by model 0 does
NOT make the call fail — the fallback walk fires `onFallback`, attempts the
next chain entry (model 1 is called) and returns its success.  This refutes
the claim that the execute operation fails immediately without attempting
any subsequent chain entry. -/
theorem claimC1_counterexample :
    (withFallbackChain
      (some ({ shouldRetry := some (fun _ _ => false) } : RetryConfig Nat))
      [((fun _ => Except.error (JsError.error ("boom"))) : Model Nat),
       ((fun _ => Except.ok 42) : Model Nat)]).1 = .ok 42 ∧
    (withFallbackChain
      (some ({ shouldRetry := some (fun _ _ => false) } : RetryConfig Nat))
      [((fun _ => Except.error (JsError.error ("boom"))) : Model Nat),
       ((fun _ => Except.ok 42) : Model Nat)]).2 =
      [Event.modelCall 0 0,
       Event.onFallback (.call (JsError.error ("boom"))) 0 1,
       Event.modelCall 1 0] := by
  decide

/-- C1 (amended): if `shouldRetry` returns false for the first error raised
by the current model (with at least one retry remaining in the budget), that
model is abandoned after exactly one attempt, with zero `onRetry`
invocations for it; if the model is the last chain entry, the call fails
immediately with that error, otherwise the `onFallback` point fires and the
walk continues with the next chain entry. -/
theorem claimC1_amended (rc : RetryConfig α) (m : Model α)
    (rest : List (Model α)) (eOut : CaughtError α)
    (hmr : 0 < (resolveRetryConfig rc).maxRetries)
    (hout : (attemptOutcome (resolveRetryConfig rc) 0 m 0).1 = .error eOut)
    (hsr : (resolveRetryConfig rc).shouldRetry eOut 1 = false) :
    withRetry (some rc) rest.isEmpty 0 m =
      (.error eOut, (attemptOutcome (resolveRetryConfig rc) 0 m 0).2) ∧
    onRetryAttempts (attemptOutcome (resolveRetryConfig rc) 0 m 0).2 = [] ∧
    modelCalls (attemptOutcome (resolveRetryConfig rc) 0 m 0).2 = [(0, 0)] ∧
    (rest = [] → withFallbackChainGo (some rc) (m :: rest) 0 =
      (.error eOut, (attemptOutcome (resolveRetryConfig rc) 0 m 0).2)) ∧
    (rest ≠ [] → withFallbackChainGo (some rc) (m :: rest) 0 =
      ((withFallbackChainGo (some rc) rest 1).1,
       (attemptOutcome (resolveRetryConfig rc) 0 m 0).2 ++
         Event.onFallback eOut 0 1 ::
         (withFallbackChainGo (some rc) rest 1).2)) := by
  have habort : ∀ b : Bool, withRetry (some rc) b 0 m =
      (.error eOut, (attemptOutcome (resolveRetryConfig rc) 0 m 0).2) :=
    fun b => withRetryGo_abort (resolveRetryConfig rc) b 0 m eOut hmr hout hsr
  refine ⟨habort rest.isEmpty, ?_, ?_, ?_, ?_⟩
  · exact (attemptOutcome_events_proj (resolveRetryConfig rc) 0 m 0).1
  · rcases attemptOutcome_events_shape (resolveRetryConfig rc) 0 m 0 with
      h | ⟨x, h⟩ <;> rw [h] <;> simp [modelCalls]
  · intro h
    subst h
    unfold withFallbackChainGo
    rw [show List.isEmpty ([] : List (Model α)) = true from rfl, habort true]
  · intro h
    obtain ⟨m2, r2, rfl⟩ : ∃ m2 r2, rest = m2 :: r2 := by
      cases rest with
      | nil => exact absurd rfl h
      | cons m2 r2 => exact ⟨m2, r2, rfl⟩
    conv_lhs => rw [withFallbackChainGo]
    rw [show List.isEmpty (m2 :: r2) = false from rfl, habort false]
    simp [Nat.zero_add]

theorem claimC1_amended_witness :
    (0 < (resolveRetryConfig
      ({ shouldRetry := some (fun _ _ => false) } : RetryConfig Nat)).maxRetries) ∧
    (withRetry
      (some ({ shouldRetry := some (fun _ _ => false) } : RetryConfig Nat))
      (List.isEmpty [((fun _ => Except.ok 42) : Model Nat)]) 0
      ((fun _ => Except.error (JsError.error ("boom"))) : Model Nat) =
      (.error (.call (JsError.error ("boom"))),
       (attemptOutcome (resolveRetryConfig
          ({ shouldRetry := some (fun _ _ => false) } : RetryConfig Nat)) 0
          ((fun _ => Except.error (JsError.error ("boom"))) : Model Nat) 0).2)) ∧
    (withFallbackChainGo
      (some ({ shouldRetry := some (fun _ _ => false) } : RetryConfig Nat))
      [((fun _ => Except.error (JsError.error ("boom"))) : Model Nat),
       ((fun _ => Except.ok 42) : Model Nat)] 0 =
      ((withFallbackChainGo
        (some ({ shouldRetry := some (fun _ _ => false) } : RetryConfig Nat))
        [((fun _ => Except.ok 42) : Model Nat)] 1).1,
       (attemptOutcome (resolveRetryConfig
          ({ shouldRetry := some (fun _ _ => false) } : RetryConfig Nat)) 0
          ((fun _ => Except.error (JsError.error ("boom"))) : Model Nat) 0).2 ++
         Event.onFallback (.call (JsError.error ("boom"))) 0 1 ::
         (withFallbackChainGo
          (some ({ shouldRetry := some (fun _ _ => false) } : RetryConfig Nat))
          [((fun _ => Except.ok 42) : Model Nat)] 1).2)) :=
  ⟨by decide,
   (claimC1_amended
     ({ shouldRetry := some (fun _ _ => false) } : RetryConfig Nat)
     ((fun _ => Except.error (JsError.error ("boom"))) : Model Nat)
     [((fun _ => Except.ok 42) : Model Nat)]
     (.call (JsError.error ("boom"))) (by decide) rfl rfl).1,
   (claimC1_amended
     ({ shouldRetry := some (fun _ _ => false) } : RetryConfig Nat)
     ((fun _ => Except.error (JsError.error ("boom"))) : Model Nat)
     [((fun _ => Except.ok 42) : Model Nat)]
     (.call (JsError.error ("boom"))) (by decide) rfl rfl).2.2.2.2
     (by simp)⟩

/-- C10: with retry explicitly disabled (`retry: false`), a constructed
router stores the disabled marker and `getRetryConfig` yields no
configuration; the fallback walk then equals the single-pass specification —
each model called exactly once, in chain order, stopping at the first
success, with fallback across entries still operating and only the last
model's error propagating — and every event of such a walk is a model call
(no backoff sleep, no retry or fallback callback point). -/
theorem claimC10 :
    (∀ (cfg : RouterConfigInput α) (rm : RouterModel α),
      cfg.retry = RetrySetting.disabled → mkRouterModel cfg = .ok rm →
      getRetryConfig rm = none) ∧
    (∀ (chain : List (Model α)) (idx : Nat),
      withFallbackChainGo (α := α) none chain idx =
        singlePassSpec chain idx) ∧
    (∀ (chain : List (Model α)) (idx : Nat),
      ((withFallbackChainGo (α := α) none chain idx).2.all
        isModelCallEvent) = true) := by
  refine ⟨?_, ?_, ?_⟩
  · intro cfg rm h1 h2
    unfold mkRouterModel at h2
    cases hv : validateConfig
        (cfg.models.map (fun p => (p.1, normalizeToChain p.2)))
        cfg.select.isSome with
    | error e => rw [hv] at h2; exact absurd h2 (by simp)
    | ok u =>
      rw [hv] at h2
      cases hs : cfg.select with
      | none => rw [hs] at h2; exact absurd h2 (by simp)
      | some sel =>
        rw [hs] at h2
        rw [Except.ok.injEq] at h2
        subst h2
        simp [getRetryConfig, resolveRetrySetting, h1]
  · intro chain idx
    exact withFallbackChainGo_disabled chain idx
  · intro chain idx
    rw [withFallbackChainGo_disabled chain idx]
    exact singlePassSpec_events chain idx

theorem claimC10_witness :
    (({ models := [("only", ModelOrChain.single
          ((fun _ => Except.ok 5) : Model Nat))],
        select := some (fun _ => ("only")),
        retry := RetrySetting.disabled } : RouterConfigInput Nat).retry =
      RetrySetting.disabled) ∧
    getRetryConfig
      (({ models := [("only", [((fun _ => Except.ok 5) : Model Nat)])],
          select := fun _ => ("only"),
          retryConfig := none } : RouterModel Nat)) = none ∧
    withFallbackChainGo (α := Nat) none
      [((fun _ => Except.error (JsError.error ("x"))) : Model Nat),
       ((fun _ => Except.ok 5) : Model Nat)] 0 =
      singlePassSpec
        [((fun _ => Except.error (JsError.error ("x"))) : Model Nat),
         ((fun _ => Except.ok 5) : Model Nat)] 0 :=
  ⟨rfl,
   claimC10.1
     ({ models := [("only", ModelOrChain.single
          ((fun _ => Except.ok 5) : Model Nat))],
        select := some (fun _ => ("only")),
        retry := RetrySetting.disabled } : RouterConfigInput Nat)
     ({ models := [("only", [((fun _ => Except.ok 5) : Model Nat)])],
        select := fun _ => ("only"),
        retryConfig := none } : RouterModel Nat) rfl rfl,
   claimC10.2.1
     [((fun _ => Except.error (JsError.error ("x"))) : Model Nat),
      ((fun _ => Except.ok 5) : Model Nat)] 0⟩

/-- C7: whenever the configured `select` function returns a key absent from
the models mapping, `doGenerate` fails with the route-not-found error whose
message names the missing key and lists all valid keys, and the trace is
empty: no model call, no retry, no fallback. -/
theorem claimC7 (rm : RouterModel α) (opts : List Message)
    (h : rm.models.lookup (rm.select (extractRequest opts)) = none) :
    doGenerate rm opts =
      (.error (.routeNotFound
        ("Selected route \"" ++ rm.select (extractRequest opts) ++
         "\" does not exist in models. Available routes: " ++
         String.intercalate (", ") (rm.models.map Prod.fst))), []) := by
  unfold doGenerate selectModelChain
  simp only [h]

theorem claimC7_witness :
    (({ models := [("fast", [((fun _ => Except.ok 1) : Model Nat)])],
        select := fun _ => ("slow"),
        retryConfig := none } : RouterModel Nat).models.lookup
      (("slow")) = none) ∧
    doGenerate
      (({ models := [("fast", [((fun _ => Except.ok 1) : Model Nat)])],
          select := fun _ => ("slow"),
          retryConfig := none } : RouterModel Nat)) [] =
      (.error (.routeNotFound
        ("Selected route \"slow\" does not exist in models. " ++
         "Available routes: fast")), []) :=
  ⟨rfl,
   by
    have h := claimC7
      (({ models := [("fast", [((fun _ => Except.ok 1) : Model Nat)])],
          select := fun _ => ("slow"),
          retryConfig := none } : RouterModel Nat)) [] rfl
    simpa using h⟩

/-- C8: constructing a router with an empty models mapping fails with the
"at least one model" configuration error; constructing with a missing select
function (and a non-empty mapping, which is checked first) fails with the
"select function" configuration error; constructing with some chain of
length zero (mapping non-empty, select present) fails with the
configuration error naming the first offending route; and construction with
at least one route, a select function, and every chain non-empty
succeeds. -/
theorem claimC8 :
    (∀ cfg : RouterConfigInput α, cfg.models = [] →
      mkRouterModel cfg =
        .error ("Router configuration must include at least one model")) ∧
    (∀ cfg : RouterConfigInput α, cfg.models ≠ [] → cfg.select = none →
      mkRouterModel cfg =
        .error ("Router configuration must include a select function")) ∧
    (∀ (cfg : RouterConfigInput α) (p : String × List (Model α)),
      cfg.select.isSome = true →
      (cfg.models.map (fun q => (q.1, normalizeToChain q.2))).find?
        (fun q => q.2.isEmpty) = some p →
      mkRouterModel cfg =
        .error ("Route \"" ++ p.1 ++ "\" must have at least one model")) ∧
    (∀ (cfg : RouterConfigInput α) (sel : RouterRequest → String),
      cfg.models ≠ [] → cfg.select = some sel →
      (cfg.models.map (fun q => (q.1, normalizeToChain q.2))).find?
        (fun q => q.2.isEmpty) = none →
      mkRouterModel cfg =
        .ok { models := cfg.models.map (fun q => (q.1, normalizeToChain q.2)),
              select := sel,
              retryConfig := resolveRetrySetting cfg.retry }) := by
  refine ⟨?_, ?_, ?_, ?_⟩
  · intro cfg h
    unfold mkRouterModel validateConfig
    rw [h]
    rfl
  · intro cfg h1 h2
    have hne : ((cfg.models.map
        (fun p => (p.1, normalizeToChain p.2))).isEmpty) = false := by
      cases hcm : cfg.models with
      | nil => exact absurd hcm h1
      | cons a l => rfl
    unfold mkRouterModel validateConfig
    rw [hne, h2]
    rfl
  · intro cfg p hsel hfind
    have hne : ((cfg.models.map
        (fun q => (q.1, normalizeToChain q.2))).isEmpty) = false := by
      cases hcm : cfg.models with
      | nil => rw [hcm] at hfind; exact absurd hfind (by simp)
      | cons a l => rfl
    unfold mkRouterModel validateConfig
    rw [hne, hsel, hfind]
    rfl
  · intro cfg sel h1 h2 h3
    have hne : ((cfg.models.map
        (fun q => (q.1, normalizeToChain q.2))).isEmpty) = false := by
      cases hcm : cfg.models with
      | nil => exact absurd hcm h1
      | cons a l => rfl
    unfold mkRouterModel validateConfig
    rw [hne, h2, h3]
    rfl

theorem claimC8_witness :
    mkRouterModel
      ({ models := [], select := some (fun _ => ("a")),
         retry := RetrySetting.unspecified } : RouterConfigInput Nat) =
      .error ("Router configuration must include at least one model") ∧
    mkRouterModel
      ({ models := [("a", ModelOrChain.single
           ((fun _ => Except.ok 1) : Model Nat))],
         select := none,
         retry := RetrySetting.unspecified } : RouterConfigInput Nat) =
      .error ("Router configuration must include a select function") ∧
    mkRouterModel
      ({ models := [("a", ModelOrChain.chain [])],
         select := some (fun _ => ("a")),
         retry := RetrySetting.unspecified } : RouterConfigInput Nat) =
      .error ("Route \"a\" must have at least one model") ∧
    mkRouterModel
      ({ models := [("a", ModelOrChain.single
           ((fun _ => Except.ok 1) : Model Nat))],
         select := some (fun _ => ("a")),
         retry := RetrySetting.unspecified } : RouterConfigInput Nat) =
      .ok { models := [("a", [((fun _ => Except.ok 1) : Model Nat)])],
            select := fun _ => ("a"),
            retryConfig := some (DEFAULT_RETRY_CONFIG Nat) } :=
  ⟨claimC8.1 _ rfl,
   claimC8.2.1 _ (by simp) rfl,
   claimC8.2.2.1 _ (("a"), ([] : List (Model Nat))) rfl rfl,
   claimC8.2.2.2 _ (fun _ => ("a")) (by simp) rfl rfl⟩

end AiRouter
